import Mathlib

/-!
# Verification of the 13F dashboard pipeline

A shallow embedding of the decision-relevant functions of the 13F
holdings pipeline (`pipeline/00_download_13f_filings.py`,
`pipeline/02_build_cusip_mappings.py`, `pipeline/04_complete_cusip_mapping.py`,
`pipeline/05_analyze_net_adds.py`, `pipeline/config_loader.py`, `app.py`)
together with theorems settling the specification claims about them.

Conventions used throughout:
* Python integers are modelled as `ℤ` (or `ℕ` for counts), Python float
  percentages as `ℚ` (exact at every concrete input appearing in a claim).
* Python dicts are modelled as association lists or as functions into
  `Option`; a dict `get` with default is the corresponding `getD`.
* Filesystem observations (a file exists, raw filings exist) are modelled
  as explicit boolean inputs; I/O traces (HTTP responses) as lists consumed
  in call order.
-/

namespace ThirteenF

/-! ## Calendar dates

`pipeline/04_complete_cusip_mapping.py` works with ISO date strings
(`datetime.fromisoformat(shares_date.split('T')[0])`).  A well-formed
zero-padded ISO date string is faithfully represented by its
year/month/day triple: lexicographic comparison of such strings is
exactly lexicographic comparison of the triples (a `T...` time suffix
can only matter when the date parts are equal, where the longer string
compares greater, so strict `<` against the plain date `2024-07-01`
is unaffected). -/

structure Date where
  year : ℕ
  month : ℕ
  day : ℕ
deriving DecidableEq

/-- Lexicographic order on dates; models Python string `<` between
well-formed ISO date strings (`shares_date < '2024-07-01'`). -/
def Date.lt (a b : Date) : Bool :=
  if a.year ≠ b.year then a.year < b.year
  else if a.month ≠ b.month then a.month < b.month
  else a.day < b.day

/-- Days since 1970-01-01 of a civil date (standard days-from-civil
algorithm, restricted to years ≥ 1 which covers every date the
pipeline handles).  `(datetime.now() - date_obj).days` for a civil
"now" and a midnight `date_obj` equals the difference of the two
day numbers. -/
def daysFromCivil (dt : Date) : ℤ :=
  let y : ℕ := if dt.month ≤ 2 then dt.year - 1 else dt.year
  let era : ℕ := y / 400
  let yoe : ℕ := y - era * 400
  let mp : ℕ := if dt.month > 2 then dt.month - 3 else dt.month + 9
  let doy : ℕ := (153 * mp + 2) / 5 + dt.day - 1
  let doe : ℕ := yoe * 365 + yoe / 4 - yoe / 100 + doy
  (era * 146097 + doe : ℤ) - 719468

/-! ## `is_valid_shares_data` (`pipeline/04_complete_cusip_mapping.py`)

The `shares_date` argument is a JSON string; the code distinguishes
three situations: a falsy value (`None` or the empty string, taking the
`else` branch), a non-empty string whose date part
`datetime.fromisoformat` cannot parse (the `except: pass` branch),
and a parseable date. -/

inductive SharesDate where
  /-- `shares_date` is falsy: missing or the empty string. -/
  | absent : SharesDate
  /-- non-empty, but `datetime.fromisoformat` raises on its date part. -/
  | malformed : SharesDate
  /-- non-empty and parseable as the given civil date. -/
  | parsed : Date → SharesDate
deriving DecidableEq

/-- The hard-coded placeholder sentinel list
`[1, 10, 12, 100, 1000, 10000]`. -/
def placeholderValues : List ℤ := [1, 10, 12, 100, 1000, 10000]

/-- Embedding of `CompleteCUSIPMapper.is_valid_shares_data`.  `now` is the
civil date of `datetime.now()`.  Returns the `(is_valid, reason)` pair. -/
def is_valid_shares_data (now : Date) (shares_outstanding : ℤ)
    (shares_date : SharesDate) : Bool × String :=
  if shares_outstanding ∈ placeholderValues then
    (false, "Placeholder value")
  else if shares_outstanding < 100000 then
    (false, "Too few shares for public company")
  else
    match shares_date with
    | .absent => (false, "No date information")
    | .malformed => (true, "Valid")
    | .parsed d =>
      let days_old : ℤ := daysFromCivil now - daysFromCivil d
      if days_old > 365 then (false, "Stale data")
      else if Date.lt d ⟨2024, 7, 1⟩ then (false, "Data too old")
      else (true, "Valid")

/-- C3: `is_valid_shares_data` rejects a shares count that is one of the
placeholder sentinels {1, 10, 12, 100, 1000, 10000} or is below 100,000
regardless of date, rejects when no date is present, and for a present
parseable date is valid exactly when the date is at most 365 days before
now and not earlier than 2024-07-01 (the boundary 2024-07-01 itself is
accepted, the comparison being strict). -/
theorem C3_is_valid_shares_data_gate (now : Date) (so : ℤ) (sd : SharesDate) :
    (so ∈ placeholderValues → (is_valid_shares_data now so sd).1 = false) ∧
    (so < 100000 → (is_valid_shares_data now so sd).1 = false) ∧
    (sd = .absent → (is_valid_shares_data now so sd).1 = false) ∧
    (∀ d, sd = .parsed d → so ∉ placeholderValues → 100000 ≤ so →
      ((is_valid_shares_data now so sd).1 = true ↔
        daysFromCivil now - daysFromCivil d ≤ 365 ∧
          Date.lt d ⟨2024, 7, 1⟩ = false)) := by
  refine ⟨fun hp => by simp [is_valid_shares_data, hp], ?_, ?_, ?_⟩
  · intro hlt
    by_cases hp : so ∈ placeholderValues <;>
      simp [is_valid_shares_data, hp, hlt]
  · intro habs
    subst habs
    by_cases hp : so ∈ placeholderValues
    · simp [is_valid_shares_data, hp]
    · by_cases hlt : so < 100000 <;> simp [is_valid_shares_data, hp, hlt]
  · intro d hd hp hge
    subst hd
    simp only [is_valid_shares_data, if_neg hp, if_neg (not_lt.mpr hge)]
    split_ifs with h1 h2 <;> simp_all
    omega

/-- Witness for C3: with "now" = 2025-06-01, a 1,000,000-share record
dated exactly 2024-07-01 (the inclusive boundary) is accepted, while a
record with the sentinel count 10,000 is rejected on the same date. -/
theorem C3_is_valid_shares_data_gate_witness :
    (is_valid_shares_data ⟨2025, 6, 1⟩ 1000000 (.parsed ⟨2024, 7, 1⟩)).1 = true ∧
    (is_valid_shares_data ⟨2025, 6, 1⟩ 10000 (.parsed ⟨2024, 7, 1⟩)).1 = false :=
  ⟨((C3_is_valid_shares_data_gate ⟨2025, 6, 1⟩ 1000000
      (.parsed ⟨2024, 7, 1⟩)).2.2.2 ⟨2024, 7, 1⟩ rfl (by decide)
      (by decide)).mpr (by decide),
   (C3_is_valid_shares_data_gate ⟨2025, 6, 1⟩ 10000
      (.parsed ⟨2024, 7, 1⟩)).1 (by decide)⟩

/-- C10: for a shares count that is neither a placeholder sentinel nor
below 100,000, a non-empty but unparseable date string makes
`is_valid_shares_data` return valid: the `except: pass` swallows the
parse failure, skipping both the 365-day staleness check and the
2024-07-01 cutoff, though a missing date is rejected. -/
theorem C10_malformed_date_passes_validation (now : Date) (so : ℤ)
    (hp : so ∉ placeholderValues) (hge : 100000 ≤ so) :
    (is_valid_shares_data now so .malformed).1 = true ∧
    (is_valid_shares_data now so .absent).1 = false := by
  constructor <;> simp [is_valid_shares_data, hp, not_lt.mpr hge]

/-- Witness for C10: a 1,000,000-share record with an unparseable date
passes validation (while the same record with no date fails). -/
theorem C10_malformed_date_passes_validation_witness :
    (is_valid_shares_data ⟨2025, 6, 1⟩ 1000000 .malformed).1 = true ∧
    (is_valid_shares_data ⟨2025, 6, 1⟩ 1000000 .absent).1 = false :=
  C10_malformed_date_passes_validation ⟨2025, 6, 1⟩ 1000000
    (by decide) (by decide)

/-! ## Filing Analyzer (`pipeline/05_analyze_net_adds.py`)

### Percent-of-shares-outstanding loop (`analyze_holdings`, lines 674-722)

One aggregated holding (a value of `self.current_holdings`) carries the
fields the loop reads.  The final descending sort by `pct_of_shares`
(line 722) only permutes the accepted list and is omitted; no claim
concerns order. -/

/-- A per-institution position inside an aggregated holding
(`{'shares': ..., 'value': ...}`). -/
structure Position where
  shares : ℤ
  value : ℤ
deriving DecidableEq

/-- An aggregated holding record (one value of `self.current_holdings`). -/
structure HoldingData where
  ticker : Option String
  name : String
  shares : ℤ
  value : ℤ
  shares_outstanding : Option ℤ
  holders : List String
  positions : List (String × Position)
deriving DecidableEq

/-- A per-institution position with its computed
`pct_of_company_shares`. -/
structure PositionPct where
  shares : ℤ
  value : ℤ
  pct_of_company_shares : ℚ
deriving DecidableEq

/-- One element of `total_holdings_pct`: an accepted security with its
ownership percentage. -/
structure SecurityPct where
  cusip : String
  ticker : Option String
  name : String
  shares : ℤ
  value : ℤ
  shares_outstanding : ℤ
  pct_of_shares : ℚ
  num_holders : ℕ
  holders : List String
  positions : List (String × PositionPct)
deriving DecidableEq

/-- The loop body of lines 674-718 for one `(cusip, data)` item:
`none` when the security is skipped (no positive shares outstanding, or
ownership above the 101% cap), `some` of the accepted record otherwise.
Python's `if shares_outstanding and shares_outstanding > 0` is
`so > 0` on the present value (`0` is falsy and also fails `> 0`). -/
def holdings_pct_entry (cusip : String) (data : HoldingData) :
    Option SecurityPct :=
  match data.shares_outstanding with
  | none => none
  | some so =>
    if so > 0 then
      let pct_of_shares : ℚ := (data.shares : ℚ) / (so : ℚ) * 100
      if pct_of_shares > 101 then none
      else
        some
          { cusip := cusip
            ticker := data.ticker
            name := data.name
            shares := data.shares
            value := data.value
            shares_outstanding := so
            pct_of_shares := pct_of_shares
            num_holders := data.holders.length
            holders := data.holders
            positions := data.positions.map fun np =>
              (np.1, ⟨np.2.shares, np.2.value, (np.2.shares : ℚ) / (so : ℚ) * 100⟩) }
    else none

/-- `total_holdings_pct` as built by the loop (before the order-only
sort of line 722). -/
def total_holdings_pct (holdings : List (String × HoldingData)) :
    List SecurityPct :=
  holdings.filterMap fun cd => holdings_pct_entry cd.1 cd.2

/-- C2: for a security with positive shares outstanding, the computed
percentage is shares held / shares outstanding x 100, and the security
is excluded from the accepted holdings list exactly when that
percentage strictly exceeds 101. -/
theorem C2_ownership_cap (cusip : String) (data : HoldingData) (so : ℤ)
    (hso : data.shares_outstanding = some so) (hpos : 0 < so) :
    (∀ sec, holdings_pct_entry cusip data = some sec →
        sec.pct_of_shares = (data.shares : ℚ) / (so : ℚ) * 100) ∧
    (holdings_pct_entry cusip data = none ↔
        (data.shares : ℚ) / (so : ℚ) * 100 > 101) ∧
    (∀ holdings sec, (cusip, data) ∈ holdings →
        holdings_pct_entry cusip data = some sec →
        sec ∈ total_holdings_pct holdings) := by
  refine ⟨?_, ?_, ?_⟩
  · intro sec hsec
    simp only [holdings_pct_entry, hso, if_pos hpos] at hsec
    split_ifs at hsec with h
    cases hsec
    rfl
  · simp only [holdings_pct_entry, hso, if_pos hpos]
    split_ifs with h <;> simp [h]
  · intro holdings sec hmem hsec
    exact List.mem_filterMap.mpr ⟨(cusip, data), hmem, hsec⟩

/-- A 105%-owned security (1,050,000 held of 1,000,000 outstanding). -/
def exHolding105 : HoldingData :=
  { ticker := some "XAAA", name := "EXAMPLE 105", shares := 1050000,
    value := 1000, shares_outstanding := some 1000000, holders := ["X"],
    positions := [("X", ⟨1050000, 1000⟩)] }

/-- A security at exactly 101% (1,010,000 held of 1,000,000
outstanding). -/
def exHolding101 : HoldingData :=
  { ticker := some "XBBB", name := "EXAMPLE 101", shares := 1010000,
    value := 1000, shares_outstanding := some 1000000, holders := ["X"],
    positions := [("X", ⟨1010000, 1000⟩)] }

/-- Witness for C2: the 105% security is excluded while the one at
exactly 101% is retained. -/
theorem C2_ownership_cap_witness :
    holdings_pct_entry "105CUSIP0" exHolding105 = none ∧
    holdings_pct_entry "101CUSIP0" exHolding101 ≠ none :=
  ⟨(C2_ownership_cap "105CUSIP0" exHolding105 1000000 rfl
      (by norm_num)).2.1.mpr (by norm_num [exHolding105]),
   fun h =>
     absurd ((C2_ownership_cap "101CUSIP0" exHolding101 1000000 rfl
       (by norm_num)).2.1.mp h) (by norm_num [exHolding101])⟩

/-! ### Quarter-over-quarter net additions
(`calculate_quarterly_net_adds`, lines 822-899)

The per-security diff against the prior quarter.  A prior-quarter
record (`prev_positions_by_cusip[cusip]`) carries shares, value, the
holder set (`set(security.get('holders', []))`) and the positions map
loaded from the prior `total_holdings_data.json`. -/

/-- One value of `prev_positions_by_cusip`. -/
structure PrevSecurity where
  shares : ℤ
  value : ℤ
  holders : Finset String
  positions : List (String × PositionPct)
deriving DecidableEq

/-- `positions.get(inst, {'shares': 0}).get('shares', 0)`. -/
def getShares (ps : List (String × PositionPct)) (inst : String) : ℤ :=
  ((ps.lookup inst).map PositionPct.shares).getD 0

/-- An entry of the per-institution `institution_changes` map. -/
structure ChangeRec where
  shares_change : ℤ
  prev_shares : ℤ
  current_shares : ℤ
deriving DecidableEq

/-- The `institution_changes` dict of lines 850-881 as a function: the
three loops (continuing holders, new holders, dropped holders) write
disjoint key sets, so the dict is this case analysis. -/
def institutionChangesFor (cur : SecurityPct) (prev : PrevSecurity)
    (inst : String) : Option ChangeRec :=
  if inst ∈ cur.holders.toFinset then
    if inst ∈ prev.holders then
      let current_shares := getShares cur.positions inst
      let prev_shares := getShares prev.positions inst
      if current_shares - prev_shares ≠ 0 then
        some ⟨current_shares - prev_shares, prev_shares, current_shares⟩
      else none
    else some ⟨getShares cur.positions inst, 0, getShares cur.positions inst⟩
  else if inst ∈ prev.holders then
    some ⟨-(getShares prev.positions inst), getShares prev.positions inst, 0⟩
  else none

/-- One element of `quarterly_adds`: the current security's record
(`security.copy()`) augmented with the change fields.  `new_holders`
and `dropped_holders` are stored as `list(set)` in the source; the
`Finset` is the faithful model of those sets. -/
structure QuarterlyAdd where
  sec : SecurityPct
  shares_change : ℤ
  value_change : ℤ
  net_institutional_change : ℤ
  new_holders : Finset String
  dropped_holders : Finset String
  institution_changes : String → Option ChangeRec
  prev_shares : ℤ
  prev_value : ℤ
  prev_num_holders : ℕ

/-- The loop body of lines 824-896 for one current security.
`prevOpt = none` models a CUSIP absent from `prev_positions_by_cusip`,
where the code substitutes the empty default record. -/
def quarterly_add_entry (cur : SecurityPct) (prevOpt : Option PrevSecurity) :
    QuarterlyAdd :=
  let prev := prevOpt.getD ⟨0, 0, ∅, []⟩
  let current_holders := cur.holders.toFinset
  { sec := cur
    shares_change := cur.shares - prev.shares
    value_change := cur.value - prev.value
    net_institutional_change :=
      ((current_holders \ prev.holders).card : ℤ) -
        ((prev.holders \ current_holders).card : ℤ)
    new_holders := current_holders \ prev.holders
    dropped_holders := prev.holders \ current_holders
    institution_changes := institutionChangesFor cur prev
    prev_shares := prev.shares
    prev_value := prev.value
    prev_num_holders := prev.holders.card }

/-- `calculate_quarterly_net_adds` over the whole current list (the
final order-only sort by `net_institutional_change`, line 899, is
omitted; no claim concerns order). -/
def calculate_quarterly_net_adds (prevMap : String → Option PrevSecurity)
    (current : List SecurityPct) : List QuarterlyAdd :=
  current.map fun sec => quarterly_add_entry sec (prevMap sec.cusip)

/-- C1: for a current security with available prior-quarter data, the
shares/value deltas are current minus prior totals; the new-holder set
is current holders minus prior holders and the dropped-holder set is
the reverse difference; the net institutional change is |new| minus
|dropped|; a new holder is recorded with its full current share count
(previous 0), a dropped holder with the negation of its prior count
(current 0), and a holder present in both quarters is recorded exactly
when its share count changed, with the delta and both counts. -/
theorem C1_quarterly_net_adds_diff (cur : SecurityPct) (prev : PrevSecurity) :
    (quarterly_add_entry cur (some prev)).shares_change
        = cur.shares - prev.shares ∧
    (quarterly_add_entry cur (some prev)).value_change
        = cur.value - prev.value ∧
    (quarterly_add_entry cur (some prev)).new_holders
        = cur.holders.toFinset \ prev.holders ∧
    (quarterly_add_entry cur (some prev)).dropped_holders
        = prev.holders \ cur.holders.toFinset ∧
    (quarterly_add_entry cur (some prev)).net_institutional_change
        = ((quarterly_add_entry cur (some prev)).new_holders.card : ℤ)
          - ((quarterly_add_entry cur (some prev)).dropped_holders.card : ℤ) ∧
    (∀ inst, inst ∈ (quarterly_add_entry cur (some prev)).new_holders →
        (quarterly_add_entry cur (some prev)).institution_changes inst
          = some ⟨getShares cur.positions inst, 0,
                  getShares cur.positions inst⟩) ∧
    (∀ inst, inst ∈ (quarterly_add_entry cur (some prev)).dropped_holders →
        (quarterly_add_entry cur (some prev)).institution_changes inst
          = some ⟨-(getShares prev.positions inst),
                  getShares prev.positions inst, 0⟩) ∧
    (∀ inst, inst ∈ cur.holders.toFinset → inst ∈ prev.holders →
        (quarterly_add_entry cur (some prev)).institution_changes inst
          = if getShares cur.positions inst - getShares prev.positions inst ≠ 0
            then some ⟨getShares cur.positions inst
                         - getShares prev.positions inst,
                       getShares prev.positions inst,
                       getShares cur.positions inst⟩
            else none) := by
  refine ⟨rfl, rfl, rfl, rfl, rfl, ?_, ?_, ?_⟩
  · intro inst hmem
    rw [show (quarterly_add_entry cur (some prev)).new_holders
          = cur.holders.toFinset \ prev.holders from rfl,
        Finset.mem_sdiff] at hmem
    show institutionChangesFor cur prev inst = _
    rw [institutionChangesFor, if_pos hmem.1, if_neg hmem.2]
  · intro inst hmem
    rw [show (quarterly_add_entry cur (some prev)).dropped_holders
          = prev.holders \ cur.holders.toFinset from rfl,
        Finset.mem_sdiff] at hmem
    show institutionChangesFor cur prev inst = _
    rw [institutionChangesFor, if_neg hmem.2, if_pos hmem.1]
  · intro inst hcur hprev
    show institutionChangesFor cur prev inst = _
    rw [institutionChangesFor, if_pos hcur, if_pos hprev]

/-- The claim's concrete current quarter: only institution B holds the
security, with 500 shares. -/
def exCurAB : SecurityPct :=
  { cusip := "EXAMPLE01", ticker := some "XEX", name := "EXAMPLE",
    shares := 500, value := 5000, shares_outstanding := 1000000,
    pct_of_shares := 1/20, num_holders := 1, holders := ["B"],
    positions := [("B", ⟨500, 5000, 1/20⟩)] }

/-- The claim's concrete prior quarter: only institution A held the
security, with 1,000 shares. -/
def exPrevAB : PrevSecurity :=
  { shares := 1000, value := 10000, holders := {"A"},
    positions := [("A", ⟨1000, 10000, 1/10⟩)] }

/-- Witness for C1: on the A/B example, `dropped_holders = {A}` with
recorded change -1000, `new_holders = {B}` with recorded change +500,
and the net institutional change is 0. -/
theorem C1_quarterly_net_adds_diff_witness :
    (quarterly_add_entry exCurAB (some exPrevAB)).dropped_holders = {"A"} ∧
    (quarterly_add_entry exCurAB (some exPrevAB)).institution_changes "A"
      = some ⟨-1000, 1000, 0⟩ ∧
    (quarterly_add_entry exCurAB (some exPrevAB)).new_holders = {"B"} ∧
    (quarterly_add_entry exCurAB (some exPrevAB)).institution_changes "B"
      = some ⟨500, 0, 500⟩ ∧
    (quarterly_add_entry exCurAB (some exPrevAB)).net_institutional_change
      = 0 :=
  ⟨by decide,
   (C1_quarterly_net_adds_diff exCurAB exPrevAB).2.2.2.2.2.2.1 "A" (by decide),
   by decide,
   (C1_quarterly_net_adds_diff exCurAB exPrevAB).2.2.2.2.2.1 "B" (by decide),
   by decide⟩

/-! ### Prior-quarter data resolution
(`calculate_quarterly_net_adds`, lines 776-802, with
`has_filings_for_quarter`)

Control flow when the prior quarter's `total_holdings_data.json` may be
missing.  The two filesystem observations — the prior output file
exists; raw filings for the prior quarter exist
(`has_filings_for_quarter`) — are modelled as booleans.

The prior-filings branch (lines 785-798) constructs a second
`Filing13FAnalyzer`, runs `process_all_filings()`, and then calls
`prev_analyzer.analyze_holdings()` (line 794).  `Filing13FAnalyzer`
defines no method of that name — its metrics method is
`calculate_metrics` (line 647) — and the class has no base class and
no `__getattr__`, so the attribute lookup raises `AttributeError`.
No `try/except` encloses the call anywhere on the
`run_analysis` → `calculate_metrics` → `calculate_quarterly_net_adds`
chain, so the branch aborts before `generate_json_output` (line 797)
persists anything and before any diff is computed. -/

/-- Either the quarter-over-quarter diff, or — when no prior data
exists at all — the current securities returned unchanged
(`return current_holdings_pct`). -/
inductive NetAddsResult where
  | diffed : List QuarterlyAdd → NetAddsResult
  | all_new : List SecurityPct → NetAddsResult

/-- The uncaught exception raised at line 794. -/
def analyzeHoldingsAttributeError : String :=
  "AttributeError: Filing13FAnalyzer object has no attribute analyze_holdings"

/-- The branch structure of lines 776-802 followed by the diff of lines
804-899: use the existing prior output if present; otherwise, if raw
prior-quarter filings exist, raise `AttributeError` at line 794 (the
nonexistent `analyze_holdings`); otherwise return the current list
unchanged with a warning. -/
def run_calculate_quarterly_net_adds (prev_output_exists : Bool)
    (has_prev_filings : Bool) (current : List SecurityPct)
    (diskPrev : String → Option PrevSecurity) :
    Except String NetAddsResult :=
  if prev_output_exists then
    .ok (.diffed (calculate_quarterly_net_adds diskPrev current))
  else if has_prev_filings then
    .error analyzeHoldingsAttributeError
  else
    .ok (.all_new current)

/-- C4 is false of the code: with the prior quarter's output file
missing but raw prior-quarter filings present, the branch raises
`AttributeError` instead of recursively analyzing, persisting and
diffing; the no-prior-filings branch does return the current
securities unchanged, and an existing prior output is diffed
normally. -/
theorem C4_prior_quarter_generation_raises (current : List SecurityPct)
    (diskPrev : String → Option PrevSecurity) :
    run_calculate_quarterly_net_adds false true current diskPrev
      = .error analyzeHoldingsAttributeError ∧
    run_calculate_quarterly_net_adds false false current diskPrev
      = .ok (.all_new current) ∧
    run_calculate_quarterly_net_adds true true current diskPrev
      = .ok (.diffed (calculate_quarterly_net_adds diskPrev current)) :=
  ⟨rfl, rfl, rfl⟩

/-! ## Dashboard data loading (`app.py`, `load_holdings_data`,
lines 156-200)

Staleness filtering of institutions.  A filing period is the
`{'year': ..., 'quarter': ...}` record of
`institution_breakdown.filing_periods`.  A security record is modelled
with exactly the fields the filter reads or writes; a missing
`positions` key and an empty `positions` dict take the same `else`
branch, so both are modelled by the empty list. -/

/-- A filing period `{'year': ..., 'quarter': ...}`. -/
structure Period where
  year : ℤ
  quarter : ℤ
deriving DecidableEq

/-- `DAYS_PER_QUARTER = 92` (`app.py` line 18). -/
def DAYS_PER_QUARTER : ℤ := 92

/-- The staleness test of `load_holdings_data` lines 166-172 for one
institution's filing period, given the selected `year`,
`current_quarter` and `max_data_age_days`. -/
def is_stale (year current_quarter max_age_days : ℤ) (p : Period) : Bool :=
  if p.year < year ∨ (p.year = year ∧ p.quarter < current_quarter) then
    let quarters_old := (year - p.year) * 4 + (current_quarter - p.quarter)
    let days_old := quarters_old * DAYS_PER_QUARTER
    days_old > max_age_days
  else false

/-- The `stale_institutions` set (names of institutions whose filing
period is stale). -/
def stale_institutions (filing_periods : List (String × Period))
    (year current_quarter max_age_days : ℤ) : List String :=
  (filing_periods.filter fun np =>
    is_stale year current_quarter max_age_days np.2).map Prod.fst

/-- A security record as `load_holdings_data` sees it (the fields the
stale filter reads or writes; the other JSON fields are carried along
unchanged by `sec.copy()` and are irrelevant here). `holder_count` is
the key the filter adds; it is absent (`none`) in the input. -/
structure AppSecurity where
  cusip : String
  positions : List (String × PositionPct)
  holders : List String
  num_holders : ℤ
  holder_count : Option ℕ
deriving DecidableEq

/-- The per-security body of the filter loop, lines 176-191: remove
stale institutions' positions, set `holder_count` to the remaining
count, drop the security when nothing remains; keep a security without
position data unchanged. -/
def filter_security (stale : List String) (sec : AppSecurity) :
    Option AppSecurity :=
  if sec.positions ≠ [] then
    let filtered_positions := sec.positions.filter fun kv => kv.1 ∉ stale
    if filtered_positions ≠ [] then
      some { sec with
        positions := filtered_positions
        holder_count := some filtered_positions.length }
    else none
  else some sec

/-- The `filtered_securities` list of `load_holdings_data`. -/
def filtered_securities (filing_periods : List (String × Period))
    (year current_quarter max_age_days : ℤ) (secs : List AppSecurity) :
    List AppSecurity :=
  secs.filterMap
    (filter_security
      (stale_institutions filing_periods year current_quarter max_age_days))

/-- A security held by a stale institution S (800 shares) and a fresh
institution K (200 shares). -/
def exAppSec : AppSecurity :=
  { cusip := "EXAMPLE02", positions := [("S", ⟨800, 8000, 0⟩), ("K", ⟨200, 2000, 0⟩)],
    holders := ["S", "K"], num_holders := 2, holder_count := none }

/-- Counterexample to C5 as stated: after filtering the stale
institution S out of `exAppSec`, only K's position remains, yet the
security's `holders` list still contains S and its `num_holders` is
still 2 — the holder set and the `num_holders` field consumed by the
rest of the dashboard are not recomputed (only a new `holder_count`
key, read nowhere else, is set to the remaining count). -/
theorem C5_counterexample_holders_not_recomputed :
    (filter_security ["S"] exAppSec).map AppSecurity.holders
      = some ["S", "K"] ∧
    (filter_security ["S"] exAppSec).map (fun s => s.positions.map Prod.fst)
      = some ["K"] ∧
    (filter_security ["S"] exAppSec).map AppSecurity.num_holders = some 2 ∧
    (filter_security ["S"] exAppSec).map AppSecurity.holders ≠ some ["K"] ∧
    (filter_security ["S"] exAppSec).map AppSecurity.num_holders ≠ some 1 := by
  decide

/-- C5 (amended): an institution is stale exactly when its filing
period predates the selected quarter and quarters-old x 92 exceeds
`max_data_age_days`; every stale institution's positions are removed
from each security that has position data, the remaining-position
count is stored in a new `holder_count` field (the `holders` list and
`num_holders` field are left unchanged), and a security whose
positions are all removed is dropped.  Concretely, a Q1 2024 filer
viewed from Q3 2025 is stale at `max_data_age_days = 365` while a
Q2 2025 filer is not. -/
theorem C5_stale_institution_filtering (year current_quarter max_age_days : ℤ)
    (p : Period) (stale : List String) (sec : AppSecurity) :
    (is_stale year current_quarter max_age_days p = true ↔
      (p.year < year ∨ (p.year = year ∧ p.quarter < current_quarter)) ∧
        ((year - p.year) * 4 + (current_quarter - p.quarter))
            * DAYS_PER_QUARTER > max_age_days) ∧
    (sec.positions ≠ [] →
      (sec.positions.filter fun kv => kv.1 ∉ stale) ≠ [] →
      filter_security stale sec = some { sec with
        positions := sec.positions.filter fun kv => kv.1 ∉ stale
        holder_count :=
          some (sec.positions.filter fun kv => kv.1 ∉ stale).length }) ∧
    (sec.positions ≠ [] →
      (sec.positions.filter fun kv => kv.1 ∉ stale) = [] →
      filter_security stale sec = none) ∧
    is_stale 2025 3 365 ⟨2024, 1⟩ = true ∧
    is_stale 2025 3 365 ⟨2025, 2⟩ = false := by
  refine ⟨?_, ?_, ?_, by decide, by decide⟩
  · rw [is_stale]
    split_ifs with h
    · simp only [decide_eq_true_eq]
      exact ⟨fun hd => ⟨h, hd⟩, fun hd => hd.2⟩
    · simp only [Bool.false_eq_true, false_iff]
      intro hd
      exact h hd.1
  · intro hpos hfil
    rw [filter_security, if_pos hpos, if_pos hfil]
  · intro hpos hfil
    rw [filter_security, if_pos hpos]
    simp only [hfil]
    simp

/-- Witness for C5 (amended): filtering the stale institution S out of
`exAppSec` keeps the security with only K's position and
`holder_count` 1 (with `holders` and `num_holders` untouched), and the
concrete Q1-2024-from-Q3-2025 institution is stale. -/
theorem C5_stale_institution_filtering_witness :
    filter_security ["S"] exAppSec
      = some { exAppSec with
          positions := [("K", ⟨200, 2000, 0⟩)]
          holder_count := some 1 } ∧
    is_stale 2025 3 365 ⟨2024, 1⟩ = true :=
  ⟨by
    have h := (C5_stale_institution_filtering 2025 3 365 ⟨2024, 1⟩ ["S"]
      exAppSec).2.1 (by decide) (by decide)
    rw [h]
    decide,
   (C5_stale_institution_filtering 2025 3 365 ⟨2024, 1⟩ ["S"]
      exAppSec).2.2.2.1⟩

/-! ## CUSIP→Ticker Mapper (`pipeline/02_build_cusip_mappings.py`)

The cache is a dict CUSIP → ticker, modelled as a function into
`Option`.  The OpenFIGI interaction is modelled by a trace of
responses consumed one per `requests.post` call, in call order;
an exhausted trace models a raised request exception (caught by the
`except` clause, counted as an API error). -/

/-- Merge of the manual-mappings file into the loaded cache
(`CUSIPMapper.__init__`, lines 44-47): a manual entry is written only
when the CUSIP is not already in the cache. -/
def init_merged_cache (cache : String → Option String)
    (manual : List (String × String)) : String → Option String :=
  manual.foldl
    (fun c kv =>
      if (c kv.1).isSome then c
      else fun x => if x = kv.1 then some kv.2 else c x)
    cache

/-- The `unmapped_cusips` list of `map_cusips_via_api` lines 261-267:
the `(cusip, name)` pairs whose CUSIP is not in the cache. -/
def unmapped_cusips (cache : String → Option String)
    (all_cusips : List (String × String)) : List (String × String) :=
  all_cusips.filter fun cn => (cache cn.1).isNone

/-- One OpenFIGI batch response: HTTP 200 with, per requested item, the
ticker of the first result entry carrying one (if any), or one of the
handled error statuses. -/
inductive ApiResponse where
  | ok : List (Option String) → ApiResponse
  | rate429 : ApiResponse
  | tooLarge413 : ApiResponse
  | otherError : ApiResponse
deriving DecidableEq

/-- Mutable state of the `map_cusips_via_api` loop. -/
structure ApiState where
  cache : String → Option String
  responses : List ApiResponse
  sleeps60 : ℕ
  api_errors : ℕ

/-- Cache updates of a successful (HTTP 200) batch, lines 314-334:
item `i` of the response belongs to `batch[i]`; a present ticker is
written into the cache. -/
def applyBatchResults (cache : String → Option String)
    (batch : List (String × String)) (items : List (Option String)) :
    String → Option String :=
  (batch.zip items).foldl
    (fun c bi =>
      match bi.2 with
      | some t => fun x => if x = bi.1.1 then some t else c x
      | none => c)
    cache

/-- One iteration of the `for batch_num in range(0, len(unmapped), 10)`
loop, lines 281-354.  On HTTP 429 the code sleeps 60 seconds and
executes `batch_num -= batch_size`; that assignment rebinds only the
local name — the next iteration takes its value from the `range`
iterator regardless, so the state records the sleep and nothing else. -/
def api_loop_body (unmapped : List (String × String)) (st : ApiState)
    (batch_num : ℕ) : ApiState :=
  let batch := (unmapped.drop batch_num).take 10
  match st.responses with
  | [] => { st with api_errors := st.api_errors + 1 }
  | r :: rest =>
    match r with
    | .ok items =>
      { st with
          responses := rest
          cache := applyBatchResults st.cache batch items }
    | .rate429 =>
      { st with responses := rest, sleeps60 := st.sleeps60 + 1 }
    | .tooLarge413 => { st with responses := rest, api_errors := st.api_errors + 1 }
    | .otherError => { st with responses := rest, api_errors := st.api_errors + 1 }

/-- `map_cusips_via_api`: early return when everything is mapped,
otherwise the batch loop over `range(0, len(unmapped), batch_size)`
with `batch_size = 10`. -/
def map_cusips_via_api (cache : String → Option String)
    (all_cusips : List (String × String)) (responses : List ApiResponse) :
    ApiState :=
  let unmapped := unmapped_cusips cache all_cusips
  if unmapped = [] then ⟨cache, responses, 0, 0⟩
  else
    (List.range' 0 ((unmapped.length + 9) / 10) 10).foldl
      (api_loop_body unmapped) ⟨cache, responses, 0, 0⟩

/-- `CUSIPMapper.run`, steps 1-2: the manual mappings are merged into
the cache at construction, before `map_cusips_via_api` runs. -/
def mapper_run (cache : String → Option String)
    (manual all_cusips : List (String × String))
    (responses : List ApiResponse) : ApiState :=
  map_cusips_via_api (init_merged_cache cache manual) all_cusips responses

/-- C6 is false of the code: with a single unmapped CUSIP and a
response trace answering the first call with HTTP 429 and the second
with a successful mapping, the run ends with the CUSIP still unmapped,
one 60-second sleep taken, and the successful response never consumed:
the `batch_num -= batch_size` after the sleep does not affect the
`range` iteration, so the rate-limited batch is skipped, not
retried. -/
theorem C6_rate_limited_batch_is_skipped_not_retried :
    (map_cusips_via_api (fun _ => none) [("C1", "NAME1")]
        [.rate429, .ok [some "TICK"]]).cache "C1" = none ∧
    (map_cusips_via_api (fun _ => none) [("C1", "NAME1")]
        [.rate429, .ok [some "TICK"]]).sleeps60 = 1 ∧
    (map_cusips_via_api (fun _ => none) [("C1", "NAME1")]
        [.rate429, .ok [some "TICK"]]).responses
      = [.ok [some "TICK"]] := by
  refine ⟨rfl, rfl, rfl⟩

/-- Helper for C7: the merge never overwrites an existing cache
entry. -/
theorem init_merged_cache_preserves (manual : List (String × String))
    (cache : String → Option String) (c : String)
    (h : (cache c).isSome) :
    init_merged_cache cache manual c = cache c := by
  induction manual generalizing cache with
  | nil => rfl
  | cons kv tl ih =>
    rw [init_merged_cache, List.foldl_cons]
    by_cases hkv : (cache kv.1).isSome
    · rw [if_pos hkv]
      exact ih cache h
    · rw [if_neg hkv]
      have hne : c ≠ kv.1 := by
        intro he
        rw [he] at h
        exact hkv h
      have := ih (fun x => if x = kv.1 then some kv.2 else cache x)
        (by simpa [hne] using h)
      rw [init_merged_cache] at this
      rw [this]
      simp [hne]

/-- Helper for C7: a manual entry fills a gap in the cache. -/
theorem init_merged_cache_fills_gap (manual : List (String × String))
    (cache : String → Option String) (c : String) (t : String)
    (hnone : cache c = none) (hlook : manual.lookup c = some t) :
    init_merged_cache cache manual c = some t := by
  induction manual generalizing cache with
  | nil => simp at hlook
  | cons kv tl ih =>
    rw [init_merged_cache, List.foldl_cons]
    rw [List.lookup_cons] at hlook
    by_cases he : c = kv.1
    · have hbeq : (c == kv.1) = true := by simp [he]
      rw [hbeq] at hlook
      simp only [if_pos rfl] at hlook
      have hkv : ¬(cache kv.1).isSome := by
        rw [← he, hnone]
        simp
      rw [if_neg hkv]
      have hins : ((fun x => if x = kv.1 then some kv.2 else cache x) c).isSome := by
        simp [he]
      have := init_merged_cache_preserves tl
        (fun x => if x = kv.1 then some kv.2 else cache x) c hins
      rw [init_merged_cache] at this
      rw [this]
      simp [he]
      exact Option.some_injective _ hlook
    · have hbeq : (c == kv.1) = false := by simp [he]
      rw [hbeq] at hlook
      simp only [Bool.false_eq_true, if_false] at hlook
      by_cases hkv : (cache kv.1).isSome
      · rw [if_pos hkv]
        exact ih cache hnone hlook
      · rw [if_neg hkv]
        exact ih (fun x => if x = kv.1 then some kv.2 else cache x)
          (by simp [he, hnone]) hlook

/-- C7 (amended): manual mappings are merged into the cache at mapper
construction, before any remote lookup runs, but for a CUSIP present
in both the manual file and the previously cached map the *cached*
ticker takes precedence (the manual entry only fills gaps); any CUSIP
covered by the merged cache is excluded from the unmapped list that
the batch loop submits to the remote service. -/
theorem C7_manual_mappings_fill_gaps_cache_wins
    (cache : String → Option String) (manual : List (String × String))
    (all_cusips : List (String × String)) (c t : String) :
    (cache c = some t → init_merged_cache cache manual c = some t) ∧
    (cache c = none → manual.lookup c = some t →
      init_merged_cache cache manual c = some t) ∧
    ((init_merged_cache cache manual c).isSome →
      c ∉ (unmapped_cusips (init_merged_cache cache manual) all_cusips).map
            Prod.fst) := by
  refine ⟨?_, init_merged_cache_fills_gap manual cache c t, ?_⟩
  · intro h
    rw [init_merged_cache_preserves manual cache c (by simp [h]), h]
  · intro hsome hmem
    rcases List.mem_map.mp hmem with ⟨cn, hcn, hfst⟩
    rcases List.mem_filter.mp hcn with ⟨-, hnone⟩
    rw [hfst] at hnone
    simp only [Option.isNone_iff_eq_none, decide_eq_true_eq] at hnone
    rw [hnone] at hsome
    simp at hsome

/-- Counterexample to C7 as stated: a CUSIP cached as CACHED and
manually mapped to MANUAL resolves to CACHED after the merge — the
manual override does not take precedence over the cache. -/
theorem C7_counterexample_cache_beats_manual :
    init_merged_cache
        (fun x => if x = "CONFLICT01" then some "CACHED" else none)
        [("CONFLICT01", "MANUAL")] "CONFLICT01" = some "CACHED" ∧
    init_merged_cache
        (fun x => if x = "CONFLICT01" then some "CACHED" else none)
        [("CONFLICT01", "MANUAL")] "CONFLICT01" ≠ some "MANUAL" := by
  refine ⟨rfl, by decide⟩

/-- Witness for C7 (amended): on a concrete cache {CONFLICT01 ↦
CACHED} and manual file {CONFLICT01 ↦ MANUAL, GAP0000001 ↦ FILLED},
the merged cache keeps CACHED, fills the gap with FILLED, and neither
CUSIP appears in the list submitted to the remote service. -/
theorem C7_manual_mappings_fill_gaps_cache_wins_witness :
    init_merged_cache
        (fun x => if x = "CONFLICT01" then some "CACHED" else none)
        [("CONFLICT01", "MANUAL"), ("GAP0000001", "FILLED")]
        "CONFLICT01" = some "CACHED" ∧
    init_merged_cache
        (fun x => if x = "CONFLICT01" then some "CACHED" else none)
        [("CONFLICT01", "MANUAL"), ("GAP0000001", "FILLED")]
        "GAP0000001" = some "FILLED" ∧
    "GAP0000001" ∉
      (unmapped_cusips
        (init_merged_cache
          (fun x => if x = "CONFLICT01" then some "CACHED" else none)
          [("CONFLICT01", "MANUAL"), ("GAP0000001", "FILLED")])
        [("CONFLICT01", "N1"), ("GAP0000001", "N2"), ("OTHER00001", "N3")]).map
          Prod.fst := by
  have h1 := (C7_manual_mappings_fill_gaps_cache_wins
    (fun x => if x = "CONFLICT01" then some "CACHED" else none)
    [("CONFLICT01", "MANUAL"), ("GAP0000001", "FILLED")]
    [("CONFLICT01", "N1"), ("GAP0000001", "N2"), ("OTHER00001", "N3")]
    "CONFLICT01" "CACHED").1 (by decide)
  have h2 := (C7_manual_mappings_fill_gaps_cache_wins
    (fun x => if x = "CONFLICT01" then some "CACHED" else none)
    [("CONFLICT01", "MANUAL"), ("GAP0000001", "FILLED")]
    [("CONFLICT01", "N1"), ("GAP0000001", "N2"), ("OTHER00001", "N3")]
    "GAP0000001" "FILLED").2.1 (by decide) (by decide)
  have h3 := (C7_manual_mappings_fill_gaps_cache_wins
    (fun x => if x = "CONFLICT01" then some "CACHED" else none)
    [("CONFLICT01", "MANUAL"), ("GAP0000001", "FILLED")]
    [("CONFLICT01", "N1"), ("GAP0000001", "N2"), ("OTHER00001", "N3")]
    "GAP0000001" "FILLED").2.2 (by rw [h2]; decide)
  exact ⟨h1, h2, h3⟩

/-! ## Configuration loader (`pipeline/config_loader.py`,
`load_config_with_env`)

The JSON configuration's `user_agent` object may be absent, and its
`name`/`email` keys may be absent; an environment variable is either
unset (`none`) or set to a string (possibly empty — Python's
`'SEC_USER_EMAIL' in os.environ` is true for an empty value, while the
final `not config['user_agent'].get('email')` check treats the empty
string as missing). -/

/-- The `user_agent` object of the configuration. -/
structure UserAgent where
  name : Option String
  email : Option String
deriving DecidableEq

/-- The configuration document (only the `user_agent` key matters to
the loader's logic; all other keys pass through untouched). -/
structure AnalysisConfig where
  user_agent : Option UserAgent
deriving DecidableEq

/-- The ConfigurationError message raised by the loader. -/
def configErrorMsg : String :=
  "SEC_USER_EMAIL environment variable must be set or user_agent.email must be configured in analysis_config.json"

/-- The environment-variable overlay of `load_config_with_env`
(lines 22-30): set `user_agent.name` from `SEC_USER_NAME` and
`user_agent.email` from `SEC_USER_EMAIL` when each is present,
creating the `user_agent` object if absent. -/
def apply_env_overrides (config : AnalysisConfig)
    (envName envEmail : Option String) : AnalysisConfig :=
  let c1 :=
    match envName with
    | some n =>
      { config with
          user_agent := some { config.user_agent.getD ⟨none, none⟩ with
                                 name := some n } }
    | none => config
  match envEmail with
  | some e =>
    { c1 with
        user_agent := some { c1.user_agent.getD ⟨none, none⟩ with
                               email := some e } }
  | none => c1

/-- Embedding of `load_config_with_env`: apply the environment
overlay, then fail with the ConfigurationError unless a truthy
(present, non-empty) email results (`if 'user_agent' not in config or
not config['user_agent'].get('email'): raise`). -/
def load_config_with_env (config : AnalysisConfig)
    (envName envEmail : Option String) : Except String AnalysisConfig :=
  let c2 := apply_env_overrides config envName envEmail
  match c2.user_agent with
  | none => .error configErrorMsg
  | some ua =>
    match ua.email with
    | none => .error configErrorMsg
    | some e => if e = "" then .error configErrorMsg else .ok c2

/-- Whether the loader raised the ConfigurationError. -/
def raisesConfigError (r : Except String AnalysisConfig) : Bool :=
  match r with
  | .error _ => true
  | .ok _ => false

/-- C8: the loader raises exactly when the overlaid configuration has
no non-empty `user_agent.email` (the environment variable taking
precedence over the JSON value), and on success returns the
configuration with the environment overrides applied to
`user_agent.name` and `user_agent.email`. -/
theorem C8_config_email_required (config : AnalysisConfig)
    (envName envEmail : Option String) :
    (raisesConfigError (load_config_with_env config envName envEmail) = true ↔
      (envEmail.orElse fun _ => config.user_agent.bind UserAgent.email) = none ∨
      (envEmail.orElse fun _ => config.user_agent.bind UserAgent.email)
        = some "") ∧
    (∀ cfg, load_config_with_env config envName envEmail = .ok cfg →
      cfg.user_agent = some
        ⟨envName.orElse fun _ => config.user_agent.bind UserAgent.name,
         envEmail.orElse fun _ => config.user_agent.bind UserAgent.email⟩) := by
  rcases config with ⟨ua⟩
  constructor
  · rcases envEmail with _ | e
    · rcases ua with _ | ⟨n0, e0⟩
      · rcases envName with _ | n <;>
          simp [load_config_with_env, apply_env_overrides,
            raisesConfigError, Option.orElse]
      · rcases e0 with _ | ev
        · rcases envName with _ | n <;>
            simp [load_config_with_env, apply_env_overrides,
              raisesConfigError, Option.orElse]
        · rcases envName with _ | n <;>
            · simp only [load_config_with_env, apply_env_overrides,
                raisesConfigError, Option.orElse, Option.getD, Option.bind]
              split_ifs with h <;> simp_all
    · rcases ua with _ | ⟨n0, e0⟩ <;>
        rcases envName with _ | n <;>
          · simp only [load_config_with_env, apply_env_overrides,
              raisesConfigError, Option.orElse, Option.getD, Option.bind]
            split_ifs with h <;> simp_all
  · intro cfg h
    rcases envEmail with _ | e
    · rcases ua with _ | ⟨n0, e0⟩
      · rcases envName with _ | n <;>
          simp [load_config_with_env, apply_env_overrides] at h
      · rcases e0 with _ | ev
        · rcases envName with _ | n <;>
            simp [load_config_with_env, apply_env_overrides] at h
        · rcases envName with _ | n <;>
            · simp only [load_config_with_env, apply_env_overrides,
                Option.getD] at h
              split_ifs at h with hemp
              simp only [Except.ok.injEq] at h
              subst h
              simp [Option.orElse]
    · rcases ua with _ | ⟨n0, e0⟩ <;>
        rcases envName with _ | n <;>
          · simp only [load_config_with_env, apply_env_overrides,
              Option.getD] at h
            split_ifs at h with hemp
            simp only [Except.ok.injEq] at h
            subst h
            simp [Option.orElse]

/-- Witness for C8: with no `user_agent` in the JSON and both
environment variables set (email non-empty), the loader succeeds and
the returned configuration carries the environment identity; with
neither source providing an email, it raises. -/
theorem C8_config_email_required_witness :
    load_config_with_env ⟨none⟩ (some "Jane Doe") (some "jane@example.com")
      = .ok ⟨some ⟨some "Jane Doe", some "jane@example.com"⟩⟩ ∧
    raisesConfigError (load_config_with_env ⟨none⟩ none none) = true :=
  ⟨rfl,
   (C8_config_email_required ⟨none⟩ none none).1.mpr (Or.inl rfl)⟩

/-! ## Filing Downloader (`pipeline/00_download_13f_filings.py`,
`download_quarter_filings`, lines 334-412)

The per-CIK loop body.  The fetch (`self.downloader.get`) either
raises (caught by the `except` clause) or completes, having created a
filing directory or not; when a directory was created the filing
period is extracted from the newest filing (possibly `None` when the
marker is absent). -/

/-- Outcome of the `downloader.get` call and directory check for one
CIK. -/
inductive FetchOutcome where
  /-- the fetch raised; the `except` branch runs. -/
  | raised : FetchOutcome
  /-- the fetch returned; `dir_created` is whether
  `filing_path.exists() and any(filing_path.iterdir())`. -/
  | completed : (dir_created : Bool) → FetchOutcome
deriving DecidableEq

/-- How one CIK is recorded by the loop: on the successful list (with
the extracted filing period, if any), the failed list, or the skipped
list. -/
inductive CikRecord where
  | success : Option Period → CikRecord
  | failure : CikRecord
  | skipped : CikRecord
deriving DecidableEq

/-- The loop body of lines 335-412 for one CIK: skip when already in
the progress set; otherwise fetch; on an exception record a failure;
otherwise record a success, with the filing period extracted only when
a filing directory was created. -/
def process_cik (downloaded_ciks : List String) (cik : String)
    (fetch : FetchOutcome) (extracted : Option Period) : CikRecord :=
  if cik ∈ downloaded_ciks then .skipped
  else
    match fetch with
    | .raised => .failure
    | .completed dir_created =>
      .success (if dir_created then extracted else none)

/-- Counterexample to C9 as stated: a fetch that completes without
creating any filing directory is recorded as a success (with no filing
period), not as a failure. -/
theorem C9_counterexample_empty_fetch_is_success :
    process_cik [] "0001067983" (.completed false) (some ⟨2025, 2⟩)
      = .success none ∧
    process_cik [] "0001067983" (.completed false) (some ⟨2025, 2⟩)
      ≠ .failure := by
  refine ⟨rfl, by decide⟩

/-- C9 (amended): every CIK is recorded in exactly one of the three
outcome lists — skipped exactly when it is already in the progress
set (without fetching), failed exactly when the fetch raised, and
successful exactly when the fetch completed without raising, whether
or not a filing directory was created (the filing period is recorded
only when one was). -/
theorem C9_per_cik_outcomes (downloaded_ciks : List String) (cik : String)
    (fetch : FetchOutcome) (extracted : Option Period) :
    (cik ∈ downloaded_ciks →
      process_cik downloaded_ciks cik fetch extracted = .skipped) ∧
    (cik ∉ downloaded_ciks → fetch = .raised →
      process_cik downloaded_ciks cik fetch extracted = .failure) ∧
    (∀ dir_created, cik ∉ downloaded_ciks → fetch = .completed dir_created →
      process_cik downloaded_ciks cik fetch extracted
        = .success (if dir_created then extracted else none)) := by
  refine ⟨?_, ?_, ?_⟩
  · intro h
    simp [process_cik, h]
  · intro h hf
    subst hf
    simp [process_cik, h]
  · intro dc h hf
    subst hf
    simp [process_cik, h]

/-- Witness for C9 (amended): a CIK in the progress set is skipped, a
raising fetch is a failure, and a completing fetch that created a
directory is a success carrying the extracted period. -/
theorem C9_per_cik_outcomes_witness :
    process_cik ["0000102909"] "0000102909" .raised none = .skipped ∧
    process_cik [] "0000102909" .raised none = .failure ∧
    process_cik [] "0000102909" (.completed true) (some ⟨2025, 2⟩)
      = .success (some ⟨2025, 2⟩) :=
  ⟨(C9_per_cik_outcomes ["0000102909"] "0000102909" .raised none).1
      (by decide),
   (C9_per_cik_outcomes [] "0000102909" .raised none).2.1 (by decide) rfl,
   (C9_per_cik_outcomes [] "0000102909" (.completed true)
      (some ⟨2025, 2⟩)).2.2 true (by decide) rfl⟩

end ThirteenF
